import Mathlib

/-!
Shallow embedding of the line-following robot simulation
(src/line_follower_sim.py) and proofs about its controller,
sensor classification and kinematics integrator.

Turn rates, speeds and steering weights are modelled as rationals:
every numeric literal appearing in the program (2, 1.5, -3.0, ...)
and every arithmetic operation performed on them is exact in binary
floating point at these magnitudes, so the rational semantics agrees
with the float semantics of the source.
-/

/-- World width in pixels (WIDTH = 800). -/
def WIDTH : Int := 800

/-- World height in pixels (HEIGHT = 600). -/
def HEIGHT : Int := 600

/-- An RGB color triple. -/
structure Color where
  r : Int
  g : Int
  b : Int
deriving DecidableEq

/-- WHITE = (255, 255, 255), the background color. -/
def WHITE : Color := ⟨255, 255, 255⟩

/-- BLACK = (0, 0, 0), the line color. -/
def BLACK : Color := ⟨0, 0, 0⟩

/-- BASE_ROBOT_SPEED = 2. -/
def BASE_ROBOT_SPEED : ℚ := 2

/-- TURN_RATE = 2 (degrees per step when turning). -/
def TURN_RATE : ℚ := 2

/-- MAX_LOST_TIME_FRAMES = 120 (frames before the search is abandoned). -/
def MAX_LOST_TIME_FRAMES : ℕ := 120

/-- The five sensor names of the fixed sensor array. -/
inductive SensorName where
  | center
  | left
  | right
  | left_forward
  | right_forward
deriving DecidableEq

/-- The iteration order of the sensor-state dictionary built by
calculate_sensor_positions (and hence of sense_line's result). -/
def sensorOrder : List SensorName :=
  [.center, .left, .right, .left_forward, .right_forward]

instance : Fintype SensorName where
  elems := ⟨[SensorName.center, .left, .right, .left_forward, .right_forward], by decide⟩
  complete := by intro x; cases x <;> decide

/-- SENSOR_WEIGHTS: the steering weight of each sensor. -/
def SENSOR_WEIGHTS : SensorName → ℚ
  | .left_forward => -3
  | .left => -2
  | .center => 0
  | .right => 2
  | .right_forward => 3

/-- A full sensor reading: which of the five sensors is on the line. -/
abbrev SensorStates := SensorName → Bool

/-- any(sensor_states.values()). -/
def any_sensor_on_line (s : SensorStates) : Bool :=
  (sensorOrder.map s).any id

/-- sum(SENSOR_WEIGHTS[s] for s in sensor_states if sensor_states[s]). -/
def steering_error (s : SensorStates) : ℚ :=
  ((sensorOrder.filter (fun n => s n)).map SENSOR_WEIGHTS).sum

/-- turn_angle = max(-TURN_RATE * 3, min(TURN_RATE * 3, turn_angle)). -/
def clampTurn (t : ℚ) : ℚ :=
  max (-(TURN_RATE * 3)) (min (TURN_RATE * 3) t)

/-- The two values of the global ROBOT_MODE variable. -/
inductive Mode where
  | FOLLOW_LINE
  | LOST_LINE_SEARCH
deriving DecidableEq

/-- The controller's persistent state: the globals ROBOT_MODE and
LOST_LINE_COUNTER. -/
structure CtrlState where
  mode : Mode
  lost : ℕ
deriving DecidableEq

/-- The command emitted each tick: (turn_angle, current_speed). -/
structure Command where
  turn_angle : ℚ
  speed : ℚ
deriving DecidableEq

/-- decide_robot_action: one controller step.  Takes the current
globals (mode, lost counter) and the sensor states; returns the updated
globals together with the emitted (turn_angle, speed) command, or
none when the line has been lost for too long and the program calls
pygame.quit() / exit() — the controlled shutdown. -/
def decide_robot_action (st : CtrlState) (s : SensorStates) : Option (CtrlState × Command) :=
  match st.mode with
  | .FOLLOW_LINE =>
    if ¬ (any_sensor_on_line s) then
      -- all sensors off line: enter search, stop, counter := 0
      some (⟨.LOST_LINE_SEARCH, 0⟩, ⟨0, 0⟩)
    else if s .center then
      -- proportional control, clamped; counter := 0
      some (⟨.FOLLOW_LINE, 0⟩,
            ⟨clampTurn (steering_error s * TURN_RATE), BASE_ROBOT_SPEED⟩)
    else
      -- center off: priority rules, then weighted fallback; counter := 0
      let turn :=
        if s .left ∧ ¬ s .right then -(TURN_RATE * 1.5)
        else if s .right ∧ ¬ s .left then TURN_RATE * 1.5
        else if s .left_forward ∧ ¬ s .right_forward then -(TURN_RATE * 2)
        else if s .right_forward ∧ ¬ s .left_forward then TURN_RATE * 2
        else clampTurn (steering_error s * TURN_RATE)
      some (⟨.FOLLOW_LINE, 0⟩, ⟨turn, BASE_ROBOT_SPEED⟩)
  | .LOST_LINE_SEARCH =>
    -- current_speed = 0; LOST_LINE_COUNTER += 1
    let lost1 := st.lost + 1
    -- sweep: counter % (120 / 2) < (120 / 4) picks the turn direction
    let turn :=
      if lost1 % (MAX_LOST_TIME_FRAMES / 2) < MAX_LOST_TIME_FRAMES / 4
      then TURN_RATE * 1.5
      else -(TURN_RATE * 1.5)
    -- recovery check (resets mode and counter), then timeout check
    let st1 : CtrlState :=
      if any_sensor_on_line s then ⟨.FOLLOW_LINE, 0⟩ else ⟨.LOST_LINE_SEARCH, lost1⟩
    if st1.lost > MAX_LOST_TIME_FRAMES then
      none
    else
      some (st1, ⟨turn, 0⟩)

/-- The all-inactive sensor reading (no sensor sees the line). -/
def noSensors : SensorStates := fun _ => false

/-- The reading in which exactly the center sensor is active. -/
def centerOnly : SensorStates := fun n => n = SensorName.center

/-- One controller step under a fixed sensor reading, keeping only the
updated controller state. -/
def stepState (s : SensorStates) (st : CtrlState) : Option CtrlState :=
  (decide_robot_action st s).map Prod.fst

/-- The controller state after k consecutive ticks with all sensors
inactive, starting from a fresh transition into search
(mode = LOST_LINE_SEARCH, counter = 0); none once the program has
shut down. -/
def iterNoSensor : ℕ → Option CtrlState
  | 0 => some ⟨.LOST_LINE_SEARCH, 0⟩
  | k + 1 => (iterNoSensor k).bind (stepState noSensors)

/-- Truncation toward zero, the semantics of Python's int() on a real. -/
def int_trunc (q : ℚ) : Int :=
  if 0 ≤ q then ⌊q⌋ else ⌈q⌉

/-- get_pixel_color: sample the surface at (int(x), int(y)), returning
WHITE for coordinates outside the screen bounds. -/
def get_pixel_color (surface : Int → Int → Color) (x y : ℚ) : Color :=
  if 0 ≤ int_trunc x ∧ int_trunc x < WIDTH ∧ 0 ≤ int_trunc y ∧ int_trunc y < HEIGHT then
    surface (int_trunc x) (int_trunc y)
  else
    WHITE

/-- is_on_line: a color is on the line iff all three channel
differences from the line color are strictly below the tolerance. -/
def is_on_line (c : Color) (line_color : Color) (tolerance : Int) : Bool :=
  (|c.r - line_color.r| < tolerance) &&
  (|c.g - line_color.g| < tolerance) &&
  (|c.b - line_color.b| < tolerance)

/-- The robot pose: position and heading angle in degrees. -/
structure Pose where
  x : ℚ
  y : ℚ
  angle : ℚ

/-- Python's % with positive real modulus 360:
x % 360 = x - 360 * floor(x / 360). -/
def fmod360 (x : ℚ) : ℚ :=
  x - 360 * ⌊x / 360⌋

/-- max lo (min hi v): the clamping applied to the robot position. -/
def clampQ (lo hi v : ℚ) : ℚ :=
  max lo (min hi v)

/-- The kinematics integrator (steps 4 and 5 of the main loop):
heading is updated and normalized first, then the position advances
along the new heading and is clamped to the screen.  The trigonometric
library functions are passed in as arguments cosd and sind (degree
cosine and sine). -/
def integrate (cosd sind : ℚ → ℚ) (p : Pose) (c : Command) : Pose :=
  let angle1 := fmod360 (p.angle + c.turn_angle)
  let x1 := clampQ 0 ((WIDTH : ℚ) - 1) (p.x + cosd angle1 * c.speed)
  let y1 := clampQ 0 ((HEIGHT : ℚ) - 1) (p.y + sind angle1 * c.speed)
  ⟨x1, y1, angle1⟩

/-- The sensor reading fixed by the spec's priority-ordering test case:
left and right_forward active, everything else inactive. -/
def leftAndRightForward : SensorStates :=
  fun n => n == SensorName.left || n == SensorName.right_forward

/-- The priority cascade worded as in the spec: the four rules in their
listed order, first match wins, with the weighted-sum-and-clamp formula
as the fallback.  Stated separately from decide_robot_action so the
code's cascade can be proved to refine it. -/
def priorityTurn_spec (s : SensorStates) : ℚ :=
  if s .left = true ∧ s .right = false then -(1.5 * TURN_RATE)
  else if s .right = true ∧ s .left = false then 1.5 * TURN_RATE
  else if s .left_forward = true ∧ s .right_forward = false then -(2 * TURN_RATE)
  else if s .right_forward = true ∧ s .left_forward = false then 2 * TURN_RATE
  else clampTurn (steering_error s * TURN_RATE)

lemma any_noSensors : any_sensor_on_line noSensors = false := by decide

lemma any_centerOnly : any_sensor_on_line centerOnly = true := by decide

lemma any_of_center (s : SensorStates) (h : s .center = true) :
    any_sensor_on_line s = true := by
  simp [any_sensor_on_line, sensorOrder, h]

/-- Characterization of one controller step taken in search mode. -/
lemma decide_search_eq (k : ℕ) (s : SensorStates) :
    decide_robot_action ⟨.LOST_LINE_SEARCH, k⟩ s =
      (if any_sensor_on_line s = true then
        some (⟨.FOLLOW_LINE, 0⟩,
          ⟨if (k + 1) % (MAX_LOST_TIME_FRAMES / 2) < MAX_LOST_TIME_FRAMES / 4
            then TURN_RATE * 1.5 else -(TURN_RATE * 1.5), 0⟩)
      else if k + 1 > MAX_LOST_TIME_FRAMES then none
      else
        some (⟨.LOST_LINE_SEARCH, k + 1⟩,
          ⟨if (k + 1) % (MAX_LOST_TIME_FRAMES / 2) < MAX_LOST_TIME_FRAMES / 4
            then TURN_RATE * 1.5 else -(TURN_RATE * 1.5), 0⟩)) := by
  cases ha : any_sensor_on_line s <;>
    simp [decide_robot_action, ha, MAX_LOST_TIME_FRAMES]

/-- Characterization of a follow-mode step when every sensor is off. -/
lemma decide_follow_lost (k : ℕ) (s : SensorStates)
    (h : any_sensor_on_line s = false) :
    decide_robot_action ⟨.FOLLOW_LINE, k⟩ s =
      some (⟨.LOST_LINE_SEARCH, 0⟩, ⟨0, 0⟩) := by
  simp [decide_robot_action, h]

/-- Characterization of a follow-mode step with the center sensor on. -/
lemma decide_follow_center (k : ℕ) (s : SensorStates) (h : s .center = true) :
    decide_robot_action ⟨.FOLLOW_LINE, k⟩ s =
      some (⟨.FOLLOW_LINE, 0⟩,
        ⟨clampTurn (steering_error s * TURN_RATE), BASE_ROBOT_SPEED⟩) := by
  simp [decide_robot_action, any_of_center s h, h]

/-- Characterization of a follow-mode step with the center sensor off
but some sensor on: the code's cascade agrees with the spec's
priority cascade. -/
lemma decide_follow_side (k : ℕ) (s : SensorStates)
    (ha : any_sensor_on_line s = true) (hc : s .center = false) :
    decide_robot_action ⟨.FOLLOW_LINE, k⟩ s =
      some (⟨.FOLLOW_LINE, 0⟩, ⟨priorityTurn_spec s, BASE_ROBOT_SPEED⟩) := by
  cases hl : s .left <;> cases hr : s .right <;>
    cases hlf : s .left_forward <;> cases hrf : s .right_forward <;>
    simp [decide_robot_action, ha, hc, hl, hr, hlf, hrf, priorityTurn_spec,
      TURN_RATE] <;> norm_num

lemma iterNoSensor_eq (i : ℕ) (h : i ≤ MAX_LOST_TIME_FRAMES) :
    iterNoSensor i = some ⟨.LOST_LINE_SEARCH, i⟩ := by
  induction i with
  | zero => rfl
  | succ n ih =>
    have hn : n ≤ MAX_LOST_TIME_FRAMES := Nat.le_of_succ_le h
    rw [iterNoSensor, ih hn]
    have hlt : ¬ (n + 1 > MAX_LOST_TIME_FRAMES) := by omega
    simp [stepState, decide_search_eq, any_noSensors, hlt]

lemma fmod360_bounds (x : ℚ) : 0 ≤ fmod360 x ∧ fmod360 x < 360 := by
  have h1 : (360 : ℚ) * (x / 360) = x := by field_simp
  have h2 : ((⌊x / 360⌋ : ℤ) : ℚ) ≤ x / 360 := Int.floor_le _
  have h3 : x / 360 < (⌊x / 360⌋ : ℤ) + 1 := Int.lt_floor_add_one _
  unfold fmod360
  constructor <;> nlinarith [h1, h2, h3]

lemma clampQ_bounds (lo hi v : ℚ) (h : lo ≤ hi) :
    lo ≤ clampQ lo hi v ∧ clampQ lo hi v ≤ hi :=
  ⟨le_max_left _ _, max_le h (min_le_left _ _)⟩

/-- Claim C6: sensor classification is total and never errors: a sensor
is active iff all three per-channel absolute differences between the
sampled color and the line color are strictly less than the tolerance,
and every sample taken outside the surface bounds yields the background
color WHITE, which classifies as inactive under the default line color
BLACK and tolerance 80, so execution continues normally. -/
theorem claim_C6_sensor_classification_total :
    (∀ (c lc : Color) (tol : Int),
      is_on_line c lc tol = true ↔
        (|c.r - lc.r| < tol ∧ |c.g - lc.g| < tol ∧ |c.b - lc.b| < tol)) ∧
    (∀ (surface : Int → Int → Color) (x y : ℚ),
      ¬ (0 ≤ int_trunc x ∧ int_trunc x < WIDTH ∧
          0 ≤ int_trunc y ∧ int_trunc y < HEIGHT) →
      get_pixel_color surface x y = WHITE ∧
        is_on_line (get_pixel_color surface x y) BLACK 80 = false) := by
  constructor
  · intro c lc tol
    simp [is_on_line, and_assoc]
  · intro surface x y h
    have hw : get_pixel_color surface x y = WHITE := by
      simp [get_pixel_color, if_neg h]
    refine ⟨hw, ?_⟩
    rw [hw]
    decide

/-- Witness for claim C6 at the concrete out-of-bounds sample
(x, y) = (1000, 0) on an all-black surface. -/
theorem claim_C6_witness :
    get_pixel_color (fun _ _ => BLACK) 1000 0 = WHITE ∧
      is_on_line (get_pixel_color (fun _ _ => BLACK) 1000 0) BLACK 80 = false :=
  claim_C6_sensor_classification_total.2 (fun _ _ => BLACK) 1000 0 (by decide)

/-- Claim C5: each tick the integrator computes the new heading as
(heading + turn_delta) mod 360, which lies in [0, 360) for every
rational turn_delta including negative ones; the position then advances
along the NEW heading and is clamped into [0, WIDTH-1] x [0, HEIGHT-1];
the whole update is a total function of pose, command and bounds. -/
theorem claim_C5_integrator_heading_and_clamp
    (cosd sind : ℚ → ℚ) (p : Pose) (c : Command) :
    0 ≤ (integrate cosd sind p c).angle ∧
    (integrate cosd sind p c).angle < 360 ∧
    (integrate cosd sind p c).angle = fmod360 (p.angle + c.turn_angle) ∧
    (integrate cosd sind p c).x =
      clampQ 0 ((WIDTH : ℚ) - 1)
        (p.x + cosd ((integrate cosd sind p c).angle) * c.speed) ∧
    (integrate cosd sind p c).y =
      clampQ 0 ((HEIGHT : ℚ) - 1)
        (p.y + sind ((integrate cosd sind p c).angle) * c.speed) ∧
    0 ≤ (integrate cosd sind p c).x ∧
    (integrate cosd sind p c).x ≤ (WIDTH : ℚ) - 1 ∧
    0 ≤ (integrate cosd sind p c).y ∧
    (integrate cosd sind p c).y ≤ (HEIGHT : ℚ) - 1 := by
  have hang := fmod360_bounds (p.angle + c.turn_angle)
  have hw : (0 : ℚ) ≤ (WIDTH : ℚ) - 1 := by norm_num [WIDTH]
  have hh : (0 : ℚ) ≤ (HEIGHT : ℚ) - 1 := by norm_num [HEIGHT]
  have hx := clampQ_bounds 0 ((WIDTH : ℚ) - 1)
    (p.x + cosd (fmod360 (p.angle + c.turn_angle)) * c.speed) hw
  have hy := clampQ_bounds 0 ((HEIGHT : ℚ) - 1)
    (p.y + sind (fmod360 (p.angle + c.turn_angle)) * c.speed) hh
  exact ⟨hang.1, hang.2, rfl, rfl, rfl, hx.1, hx.2, hy.1, hy.2⟩

/-- Claim C1 counterexample: in a maximal all-sensors-inactive search
run the controller state before search tick 29 (0-indexed) is
(LOST_LINE_SEARCH, 29), and that tick emits turn -1.5 * TURN_RATE, not
+1.5 * TURN_RATE as the claimed ranges (+ on ticks 0-29) state: the
counter is incremented to 30 before the sweep test 30 % 60 < 30. -/
theorem claim_C1_counterexample :
    iterNoSensor 29 = some ⟨.LOST_LINE_SEARCH, 29⟩ ∧
    decide_robot_action ⟨.LOST_LINE_SEARCH, 29⟩ noSensors =
      some (⟨.LOST_LINE_SEARCH, 30⟩, ⟨-(TURN_RATE * 1.5), 0⟩) ∧
    ¬ (-(TURN_RATE * 1.5) = TURN_RATE * 1.5) := by
  refine ⟨iterNoSensor_eq 29 (by decide), ?_, by norm_num [TURN_RATE]⟩
  rw [decide_search_eq]
  simp [any_noSensors, MAX_LOST_TIME_FRAMES]

/-- Claim C1 (amended): on search tick i (0-indexed) of a maximal
all-sensors-inactive search run the controller state is
(LOST_LINE_SEARCH, i); the tick emits speed 0, and its turn_delta is
+1.5 * TURN_RATE exactly when the incremented counter (i + 1) satisfies
(i + 1) % (120 / 2) < 120 / 4, i.e. + on ticks 0-28, - on 29-58,
+ on 59-88, repeating with period 60, one tick earlier than claimed. -/
theorem claim_C1_search_sweep (i : ℕ) (hi : i ≤ 119) :
    iterNoSensor i = some ⟨.LOST_LINE_SEARCH, i⟩ ∧
    decide_robot_action ⟨.LOST_LINE_SEARCH, i⟩ noSensors =
      some (⟨.LOST_LINE_SEARCH, i + 1⟩,
        ⟨if (i + 1) % (MAX_LOST_TIME_FRAMES / 2) < MAX_LOST_TIME_FRAMES / 4
          then TURN_RATE * 1.5 else -(TURN_RATE * 1.5), 0⟩) := by
  have h120 : i ≤ MAX_LOST_TIME_FRAMES := by
    simp only [MAX_LOST_TIME_FRAMES]; omega
  have hlt : ¬ (i + 1 > MAX_LOST_TIME_FRAMES) := by
    simp only [MAX_LOST_TIME_FRAMES]; omega
  refine ⟨iterNoSensor_eq i h120, ?_⟩
  rw [decide_search_eq]
  simp [any_noSensors, hlt]

/-- Witness for claim C1 at search tick 60: the sweep has turned back
to +1.5 * TURN_RATE since 61 % 60 = 1 < 30. -/
theorem claim_C1_witness :
    iterNoSensor 60 = some ⟨.LOST_LINE_SEARCH, 60⟩ ∧
    decide_robot_action ⟨.LOST_LINE_SEARCH, 60⟩ noSensors =
      some (⟨.LOST_LINE_SEARCH, 60 + 1⟩,
        ⟨if (60 + 1) % (MAX_LOST_TIME_FRAMES / 2) < MAX_LOST_TIME_FRAMES / 4
          then TURN_RATE * 1.5 else -(TURN_RATE * 1.5), 0⟩) :=
  claim_C1_search_sweep 60 (by decide)

/-- Claim C2: starting from a fresh transition into search
(counter 0), with all sensors inactive on every tick, the state after
i searching ticks (i up to 120) is (LOST_LINE_SEARCH, i) — so no abort
happens through tick 120 — and the 121st searching tick shuts the
program down (counter 121 > 120); while a searching tick on which any
sensor is active instead returns the controller to FOLLOW_LINE. -/
theorem claim_C2_abort_after_121 :
    (∀ i : ℕ, i ≤ MAX_LOST_TIME_FRAMES →
      iterNoSensor i = some ⟨.LOST_LINE_SEARCH, i⟩) ∧
    iterNoSensor (MAX_LOST_TIME_FRAMES + 1) = none ∧
    (∀ (k : ℕ) (s : SensorStates), any_sensor_on_line s = true →
      stepState s ⟨.LOST_LINE_SEARCH, k⟩ = some ⟨.FOLLOW_LINE, 0⟩) := by
  refine ⟨fun i h => iterNoSensor_eq i h, ?_, ?_⟩
  · rw [iterNoSensor, iterNoSensor_eq MAX_LOST_TIME_FRAMES (le_refl _)]
    simp [stepState, decide_search_eq, any_noSensors, MAX_LOST_TIME_FRAMES]
  · intro k s hs
    simp [stepState, decide_search_eq, hs]

/-- Witness for claim C2: state after 120 all-inactive searching ticks,
and recovery to FOLLOW_LINE on a searching tick with the center sensor
active. -/
theorem claim_C2_witness :
    iterNoSensor 120 = some ⟨.LOST_LINE_SEARCH, 120⟩ ∧
    stepState centerOnly ⟨.LOST_LINE_SEARCH, 3⟩ = some ⟨.FOLLOW_LINE, 0⟩ :=
  ⟨claim_C2_abort_after_121.1 120 (by decide),
   claim_C2_abort_after_121.2.2 3 centerOnly (by decide)⟩

/-- Claim C3: in FOLLOW_LINE mode with the center sensor active the
emitted command is turn_delta = clamp(steering_error * TURN_RATE) with
steering_error the sum of the weights of exactly the active sensors,
and speed = BASE_ROBOT_SPEED; in particular with only the center sensor
active the steering error is 0, the turn is 0 and the speed is the base
speed. -/
theorem claim_C3_follow_center_control (k : ℕ) (s : SensorStates)
    (h : s .center = true) :
    decide_robot_action ⟨.FOLLOW_LINE, k⟩ s =
      some (⟨.FOLLOW_LINE, 0⟩,
        ⟨clampTurn (steering_error s * TURN_RATE), BASE_ROBOT_SPEED⟩) ∧
    steering_error centerOnly = 0 ∧
    decide_robot_action ⟨.FOLLOW_LINE, k⟩ centerOnly =
      some (⟨.FOLLOW_LINE, 0⟩, ⟨0, BASE_ROBOT_SPEED⟩) := by
  refine ⟨decide_follow_center k s h, ?_, ?_⟩
  · simp [steering_error, centerOnly, sensorOrder, SENSOR_WEIGHTS]
  · rw [decide_follow_center k centerOnly (by decide)]
    simp [steering_error, centerOnly, sensorOrder, SENSOR_WEIGHTS, clampTurn,
      TURN_RATE]

/-- Witness for claim C3 at the concrete reading with only the center
sensor active and counter 0. -/
theorem claim_C3_witness :
    decide_robot_action ⟨.FOLLOW_LINE, 0⟩ centerOnly =
      some (⟨.FOLLOW_LINE, 0⟩,
        ⟨clampTurn (steering_error centerOnly * TURN_RATE), BASE_ROBOT_SPEED⟩) ∧
    steering_error centerOnly = 0 ∧
    decide_robot_action ⟨.FOLLOW_LINE, 0⟩ centerOnly =
      some (⟨.FOLLOW_LINE, 0⟩, ⟨0, BASE_ROBOT_SPEED⟩) :=
  claim_C3_follow_center_control 0 centerOnly (by decide)

/-- Claim C4: in FOLLOW_LINE mode with the center sensor inactive and
at least one sensor active, the emitted turn is exactly the spec's
first-match priority cascade with the weighted-sum fallback; in
particular for left and right_forward active (others inactive) rule 1
fires, giving -1.5 * TURN_RATE, which differs from rule 4's
+2 * TURN_RATE. -/
theorem claim_C4_priority_order :
    (∀ (k : ℕ) (s : SensorStates), s .center = false →
      any_sensor_on_line s = true →
      decide_robot_action ⟨.FOLLOW_LINE, k⟩ s =
        some (⟨.FOLLOW_LINE, 0⟩, ⟨priorityTurn_spec s, BASE_ROBOT_SPEED⟩)) ∧
    decide_robot_action ⟨.FOLLOW_LINE, 0⟩ leftAndRightForward =
      some (⟨.FOLLOW_LINE, 0⟩, ⟨-(1.5 * TURN_RATE), BASE_ROBOT_SPEED⟩) ∧
    ¬ (-(1.5 * TURN_RATE) = 2 * TURN_RATE) := by
  refine ⟨fun k s hc ha => decide_follow_side k s ha hc, ?_, by norm_num [TURN_RATE]⟩
  rw [decide_follow_side 0 leftAndRightForward (by decide) (by decide)]
  simp [priorityTurn_spec, leftAndRightForward, TURN_RATE]

/-- Witness for claim C4 at the reading with left and right_forward
active and counter 3. -/
theorem claim_C4_witness :
    decide_robot_action ⟨.FOLLOW_LINE, 3⟩ leftAndRightForward =
      some (⟨.FOLLOW_LINE, 0⟩,
        ⟨priorityTurn_spec leftAndRightForward, BASE_ROBOT_SPEED⟩) :=
  claim_C4_priority_order.1 3 leftAndRightForward (by decide) (by decide)

/-- Exhaustive characterization of a successful controller step: the
five branches of decide_robot_action that return a command. -/
lemma decide_cases (mode : Mode) (lost : ℕ) (st1 : CtrlState)
    (s : SensorStates) (c : Command)
    (h : decide_robot_action ⟨mode, lost⟩ s = some (st1, c)) :
    (mode = .FOLLOW_LINE ∧ any_sensor_on_line s = false ∧
      st1 = ⟨.LOST_LINE_SEARCH, 0⟩ ∧ c = ⟨0, 0⟩) ∨
    (mode = .FOLLOW_LINE ∧ any_sensor_on_line s = true ∧ s .center = true ∧
      st1 = ⟨.FOLLOW_LINE, 0⟩ ∧
      c = ⟨clampTurn (steering_error s * TURN_RATE), BASE_ROBOT_SPEED⟩) ∨
    (mode = .FOLLOW_LINE ∧ any_sensor_on_line s = true ∧ s .center = false ∧
      st1 = ⟨.FOLLOW_LINE, 0⟩ ∧
      c = ⟨priorityTurn_spec s, BASE_ROBOT_SPEED⟩) ∨
    (mode = .LOST_LINE_SEARCH ∧ any_sensor_on_line s = true ∧
      st1 = ⟨.FOLLOW_LINE, 0⟩ ∧
      c = ⟨if (lost + 1) % (MAX_LOST_TIME_FRAMES / 2) < MAX_LOST_TIME_FRAMES / 4
            then TURN_RATE * 1.5 else -(TURN_RATE * 1.5), 0⟩) ∨
    (mode = .LOST_LINE_SEARCH ∧ any_sensor_on_line s = false ∧
      lost + 1 ≤ MAX_LOST_TIME_FRAMES ∧
      st1 = ⟨.LOST_LINE_SEARCH, lost + 1⟩ ∧
      c = ⟨if (lost + 1) % (MAX_LOST_TIME_FRAMES / 2) < MAX_LOST_TIME_FRAMES / 4
            then TURN_RATE * 1.5 else -(TURN_RATE * 1.5), 0⟩) := by
  cases mode with
  | FOLLOW_LINE =>
    cases ha : any_sensor_on_line s with
    | false =>
      rw [decide_follow_lost lost s ha] at h
      simp only [Option.some.injEq, Prod.mk.injEq] at h
      exact Or.inl ⟨rfl, rfl, h.1.symm, h.2.symm⟩
    | true =>
      cases hc : s .center with
      | true =>
        rw [decide_follow_center lost s hc] at h
        simp only [Option.some.injEq, Prod.mk.injEq] at h
        exact Or.inr (Or.inl ⟨rfl, rfl, rfl, h.1.symm, h.2.symm⟩)
      | false =>
        rw [decide_follow_side lost s ha hc] at h
        simp only [Option.some.injEq, Prod.mk.injEq] at h
        exact Or.inr (Or.inr (Or.inl ⟨rfl, rfl, rfl, h.1.symm, h.2.symm⟩))
  | LOST_LINE_SEARCH =>
    rw [decide_search_eq] at h
    cases ha : any_sensor_on_line s with
    | true =>
      simp only [ha, if_true] at h
      simp only [Option.some.injEq, Prod.mk.injEq] at h
      exact Or.inr (Or.inr (Or.inr (Or.inl ⟨rfl, rfl, h.1.symm, h.2.symm⟩)))
    | false =>
      simp only [ha, Bool.false_eq_true, if_false] at h
      by_cases ht : lost + 1 > MAX_LOST_TIME_FRAMES
      · rw [if_pos ht] at h
        exact absurd h (by simp)
      · rw [if_neg ht] at h
        simp only [Option.some.injEq, Prod.mk.injEq] at h
        exact Or.inr (Or.inr (Or.inr (Or.inr
          ⟨rfl, rfl, by omega, h.1.symm, h.2.symm⟩)))

/-- Claim C7: the lost counter is reset on every transition of the mode
into FOLLOW_LINE and on every FOLLOW_LINE tick with at least one sensor
active; moreover whenever a step ends in FOLLOW_LINE the counter is 0,
for every controller state, reachable or not. -/
theorem claim_C7_lost_counter_reset (st st1 : CtrlState) (s : SensorStates)
    (c : Command) (h : decide_robot_action st s = some (st1, c)) :
    ((st.mode ≠ .FOLLOW_LINE ∧ st1.mode = .FOLLOW_LINE) → st1.lost = 0) ∧
    ((st.mode = .FOLLOW_LINE ∧ any_sensor_on_line s = true) → st1.lost = 0) ∧
    (st1.mode = .FOLLOW_LINE → st1.lost = 0) := by
  obtain ⟨mode, lost⟩ := st
  rcases decide_cases mode lost st1 s c h with
    ⟨hm, ha, hst, hc⟩ | ⟨hm, ha, hcen, hst, hc⟩ | ⟨hm, ha, hcen, hst, hc⟩ |
    ⟨hm, ha, hst, hc⟩ | ⟨hm, ha, hb, hst, hc⟩ <;> subst hst <;> simp_all

/-- Claim C8: the decide step is a total function that never raises:
for every mode, counter and sensor reading it either returns a command
or returns the distinguished shutdown signal (none), and the shutdown
happens exactly on the search-timeout path, where the incremented lost
counter exceeds MAX_LOST_TIME_FRAMES with every sensor inactive.
Sensing (get_pixel_color, is_on_line) and integration (integrate) are
likewise total Lean functions over their whole domains. -/
theorem claim_C8_decide_total_controlled_shutdown
    (st : CtrlState) (s : SensorStates) :
    decide_robot_action st s = none ↔
      st.mode = .LOST_LINE_SEARCH ∧ any_sensor_on_line s = false ∧
        st.lost + 1 > MAX_LOST_TIME_FRAMES := by
  obtain ⟨mode, lost⟩ := st
  constructor
  · intro h
    cases mode with
    | FOLLOW_LINE =>
      cases ha : any_sensor_on_line s with
      | false => rw [decide_follow_lost lost s ha] at h; exact absurd h (by simp)
      | true =>
        cases hc : s .center with
        | true =>
          rw [decide_follow_center lost s hc] at h; exact absurd h (by simp)
        | false =>
          rw [decide_follow_side lost s ha hc] at h; exact absurd h (by simp)
    | LOST_LINE_SEARCH =>
      rw [decide_search_eq] at h
      cases ha : any_sensor_on_line s with
      | true => simp [ha] at h
      | false =>
        simp only [ha, Bool.false_eq_true, if_false] at h
        by_cases ht : lost + 1 > MAX_LOST_TIME_FRAMES
        · exact ⟨rfl, rfl, ht⟩
        · rw [if_neg ht] at h; exact absurd h (by simp)
  · rintro ⟨hm, ha, ht⟩
    simp only at hm
    subst hm
    rw [decide_search_eq]
    simp only at ha ht
    simp [ha, ht]

/-- The clamped weighted-sum turn stays within the clamp bound. -/
lemma abs_clampTurn_le (t : ℚ) : |clampTurn t| ≤ 3 * TURN_RATE := by
  rw [abs_le]
  constructor
  · have he : -(3 * TURN_RATE) = -(TURN_RATE * 3) := by ring
    rw [he]
    exact le_max_left _ _
  · exact max_le (by norm_num [TURN_RATE])
      ((min_le_left _ _).trans (by norm_num [TURN_RATE]))

/-- Every value produced by the spec-side priority cascade stays within
the clamp bound. -/
lemma abs_priorityTurn_spec_le (s : SensorStates) :
    |priorityTurn_spec s| ≤ 3 * TURN_RATE := by
  unfold priorityTurn_spec
  split_ifs
  · rw [abs_le]; constructor <;> norm_num [TURN_RATE]
  · rw [abs_le]; constructor <;> norm_num [TURN_RATE]
  · rw [abs_le]; constructor <;> norm_num [TURN_RATE]
  · rw [abs_le]; constructor <;> norm_num [TURN_RATE]
  · exact abs_clampTurn_le _

/-- Claim C9: every command the decide step emits has
|turn_delta| bounded by 3 * TURN_RATE: the weighted-sum branches are
clamped to that bound and every constant branch has magnitude at most
2 * TURN_RATE. -/
theorem claim_C9_turn_delta_bounded (st st1 : CtrlState) (s : SensorStates)
    (c : Command) (h : decide_robot_action st s = some (st1, c)) :
    |c.turn_angle| ≤ 3 * TURN_RATE := by
  obtain ⟨mode, lost⟩ := st
  rcases decide_cases mode lost st1 s c h with
    ⟨hm, ha, hst, hc⟩ | ⟨hm, ha, hcen, hst, hc⟩ | ⟨hm, ha, hcen, hst, hc⟩ |
    ⟨hm, ha, hst, hc⟩ | ⟨hm, ha, hb, hst, hc⟩ <;> subst hc
  · simp only
    rw [abs_le]
    constructor <;> norm_num [TURN_RATE]
  · exact abs_clampTurn_le _
  · exact abs_priorityTurn_spec_le s
  · simp only
    split_ifs <;> (rw [abs_le]; constructor <;> norm_num [TURN_RATE])
  · simp only
    split_ifs <;> (rw [abs_le]; constructor <;> norm_num [TURN_RATE])

/-- Witness for claim C9 at the center-only follow step, whose emitted
turn is clamp(0 * TURN_RATE). -/
theorem claim_C9_witness :
    |(Command.mk (clampTurn (steering_error centerOnly * TURN_RATE))
        BASE_ROBOT_SPEED).turn_angle| ≤ 3 * TURN_RATE :=
  claim_C9_turn_delta_bounded ⟨.FOLLOW_LINE, 0⟩ ⟨.FOLLOW_LINE, 0⟩ centerOnly
    ⟨clampTurn (steering_error centerOnly * TURN_RATE), BASE_ROBOT_SPEED⟩
    (decide_follow_center 0 centerOnly (by decide))

/-- Witness for claim C7 at the recovery step: a searching tick with
counter 5 and the center sensor active returns to FOLLOW_LINE with the
counter reset to 0. -/
theorem claim_C7_witness :
    (((⟨.LOST_LINE_SEARCH, 5⟩ : CtrlState).mode ≠ .FOLLOW_LINE ∧
        (⟨.FOLLOW_LINE, 0⟩ : CtrlState).mode = .FOLLOW_LINE) →
      (⟨.FOLLOW_LINE, 0⟩ : CtrlState).lost = 0) ∧
    (((⟨.LOST_LINE_SEARCH, 5⟩ : CtrlState).mode = .FOLLOW_LINE ∧
        any_sensor_on_line centerOnly = true) →
      (⟨.FOLLOW_LINE, 0⟩ : CtrlState).lost = 0) ∧
    ((⟨.FOLLOW_LINE, 0⟩ : CtrlState).mode = .FOLLOW_LINE →
      (⟨.FOLLOW_LINE, 0⟩ : CtrlState).lost = 0) :=
  claim_C7_lost_counter_reset ⟨.LOST_LINE_SEARCH, 5⟩ ⟨.FOLLOW_LINE, 0⟩
    centerOnly ⟨TURN_RATE * 1.5, 0⟩
    (by rw [decide_search_eq]; simp [any_centerOnly, MAX_LOST_TIME_FRAMES])

/-- Claim C10 counterexample: the searching tick that recovers the line
(mode LOST_LINE_SEARCH, counter 5, center sensor active) transitions to
FOLLOW_LINE — so it neither enters nor remains in search — yet the
command it returns has speed 0, not the base speed. -/
theorem claim_C10_counterexample :
    decide_robot_action ⟨.LOST_LINE_SEARCH, 5⟩ centerOnly =
      some (⟨.FOLLOW_LINE, 0⟩, ⟨TURN_RATE * 1.5, 0⟩) ∧
    Mode.FOLLOW_LINE ≠ Mode.LOST_LINE_SEARCH ∧
    (0 : ℚ) ≠ BASE_ROBOT_SPEED := by
  refine ⟨?_, by decide, by norm_num [BASE_ROBOT_SPEED]⟩
  rw [decide_search_eq]
  simp [any_centerOnly, MAX_LOST_TIME_FRAMES]

/-- Claim C10 (amended): every FOLLOW_LINE tick with at least one
sensor active returns speed = BASE_ROBOT_SPEED (in all branches,
priority rules included), and a returned speed is 0 exactly on ticks
that begin in LOST_LINE_SEARCH (including the recovery tick that
returns to FOLLOW_LINE) or that enter it from FOLLOW_LINE with every
sensor inactive. -/
theorem claim_C10_speed_base_or_zero (st st1 : CtrlState) (s : SensorStates)
    (c : Command) (h : decide_robot_action st s = some (st1, c)) :
    ((st.mode = .FOLLOW_LINE ∧ any_sensor_on_line s = true) →
      c.speed = BASE_ROBOT_SPEED) ∧
    (c.speed = 0 ↔
      (st.mode = .LOST_LINE_SEARCH ∨
        (st.mode = .FOLLOW_LINE ∧ any_sensor_on_line s = false))) := by
  obtain ⟨mode, lost⟩ := st
  rcases decide_cases mode lost st1 s c h with
    ⟨hm, ha, hst, hc⟩ | ⟨hm, ha, hcen, hst, hc⟩ | ⟨hm, ha, hcen, hst, hc⟩ |
    ⟨hm, ha, hst, hc⟩ | ⟨hm, ha, hb, hst, hc⟩ <;> subst hc <;>
    simp_all [BASE_ROBOT_SPEED]

/-- Witness for claim C10 at the center-only follow step, whose command
carries the base speed. -/
theorem claim_C10_witness :
    (((⟨.FOLLOW_LINE, 0⟩ : CtrlState).mode = .FOLLOW_LINE ∧
        any_sensor_on_line centerOnly = true) →
      (Command.mk (clampTurn (steering_error centerOnly * TURN_RATE))
          BASE_ROBOT_SPEED).speed = BASE_ROBOT_SPEED) ∧
    ((Command.mk (clampTurn (steering_error centerOnly * TURN_RATE))
          BASE_ROBOT_SPEED).speed = 0 ↔
      ((⟨.FOLLOW_LINE, 0⟩ : CtrlState).mode = .LOST_LINE_SEARCH ∨
        ((⟨.FOLLOW_LINE, 0⟩ : CtrlState).mode = .FOLLOW_LINE ∧
          any_sensor_on_line centerOnly = false))) :=
  claim_C10_speed_base_or_zero ⟨.FOLLOW_LINE, 0⟩ ⟨.FOLLOW_LINE, 0⟩ centerOnly
    ⟨clampTurn (steering_error centerOnly * TURN_RATE), BASE_ROBOT_SPEED⟩
    (decide_follow_center 0 centerOnly (by decide))
